import Mathlib

/-!
Verification of the transaction data-integrity monitoring engine
(`transaction-monitoring.py`): the per-transaction validator, the per-day
aggregation, the SLA action-item rules and the daily-report generator.

Python scalar values that can sit in a transaction record are modelled by
`PyVal`: the singleton `None`, the float `nan`, ordinary numbers (floats
and ints modelled together as rationals) and strings.  Python comparisons
between incompatible values raise `TypeError`; that is modelled by
`Except`-valued comparison functions, and the validator consequently
returns in `Except`.
-/

deriving instance DecidableEq for Except

/-- A Python scalar value as it can appear in a transaction field. -/
inductive PyVal where
  | vnone : PyVal
  | nan : PyVal
  | num : ℚ → PyVal
  | str : String → PyVal
deriving DecidableEq

/-- The one kind of fault the modelled code can raise. -/
inductive PyErr where
  | typeError : PyErr
deriving DecidableEq

/-- `pd.isna`: true exactly on `None` and `nan` among scalars. -/
def pd_isna : PyVal → Bool
  | .vnone => true
  | .nan => true
  | .num _ => false
  | .str _ => false

/-- Python `a <= b` on scalars: numbers compare numerically, any comparison
involving `nan` is `False`, strings compare lexicographically, and mixing
`None` or a string with a number raises `TypeError`. -/
def pyLE : PyVal → PyVal → Except PyErr Bool
  | .num a, .num b => .ok (decide (a ≤ b))
  | .num _, .nan => .ok false
  | .nan, .num _ => .ok false
  | .nan, .nan => .ok false
  | .str a, .str b => .ok (decide (a ≤ b))
  | _, _ => .error .typeError

/-- Python `a > b` on scalars, same conventions as `pyLE`. -/
def pyGT : PyVal → PyVal → Except PyErr Bool
  | .num a, .num b => .ok (decide (b < a))
  | .num _, .nan => .ok false
  | .nan, .num _ => .ok false
  | .nan, .nan => .ok false
  | .str a, .str b => .ok (decide (b < a))
  | _, _ => .error .typeError

/-- Python `str(v)`: `str(None) = "None"`, `str(nan) = "nan"`.  The exact
rendering of other numbers is irrelevant to every property below; integral
values render like Python ints and other rationals via `toString`. -/
def pyStr : PyVal → String
  | .vnone => "None"
  | .nan => "nan"
  | .num q => if q.den = 1 then toString q.num else toString q
  | .str s => s

/-- The fields of a transaction record read by `validate_transaction`.
(The record also carries `transaction_id`, `timestamp`, `response_code`,
`error_code` and `region`, none of which the validator touches.) -/
structure Transaction where
  merchant_id : PyVal
  amount : PyVal
  currency : PyVal
  card_type : PyVal
  processing_time : PyVal
deriving DecidableEq

/-- `TransactionMonitor.validate_transaction`, literally: the missing-field
loop over `['merchant_id', 'amount', 'currency', 'card_type']` (unrolled),
then `amount <= 0`, then `len(str(currency)) != 3`, then
`processing_time > 4.0`, returning `(len(error_codes) == 0, error_codes)`.
The two numeric comparisons can raise `TypeError` (e.g. on `None`). -/
def validate_transaction (t : Transaction) : Except PyErr (Bool × List String) :=
  let missing : List String :=
    (if pd_isna t.merchant_id then ["MISSING_MERCHANT_ID"] else []) ++
    (if pd_isna t.amount then ["MISSING_AMOUNT"] else []) ++
    (if pd_isna t.currency then ["MISSING_CURRENCY"] else []) ++
    (if pd_isna t.card_type then ["MISSING_CARD_TYPE"] else [])
  match pyLE t.amount (.num 0) with
  | .error e => .error e
  | .ok amount_le_zero =>
    let codes1 := missing ++ (if amount_le_zero then ["INVALID_AMOUNT"] else [])
    let codes2 := codes1 ++ (if (pyStr t.currency).length ≠ 3 then ["INVALID_CURRENCY"] else [])
    match pyGT t.processing_time (.num 4) with
    | .error e => .error e
    | .ok slow =>
      let error_codes := codes2 ++ (if slow then ["SLA_BREACH"] else [])
      .ok (error_codes.isEmpty, error_codes)

/-!
## The aggregator

`analyze_performance` is the SQL query over the `transactions` table:

    SELECT DATE(timestamp), COUNT(*), AVG(processing_time),
           SUM(CASE WHEN error_code IS NOT NULL THEN 1 ELSE 0 END) * 100.0 / COUNT(*),
           SUM(CASE WHEN processing_time > 4.0 THEN 1 ELSE 0 END)
    FROM transactions
    WHERE DATE(timestamp) BETWEEN start_date AND end_date
    GROUP BY DATE(timestamp) ORDER BY DATE(timestamp)

The store is the list of rows of the table; a timestamp is a calendar date
(a day number) plus a time-of-day component that `DATE()` discards.  Days
are totally ordered numbers, which is all `BETWEEN`/`GROUP BY`/`ORDER BY`
use.  Only the columns the query touches are modelled.
-/

/-- A `DATETIME` value: `DATE()` keeps `date` and drops `timeOfDay`. -/
structure Timestamp where
  date : ℕ
  timeOfDay : ℕ
deriving DecidableEq

/-- SQL `DATE(timestamp)`. -/
def dateOf (ts : Timestamp) : ℕ := ts.date

/-- A row of the `transactions` table, restricted to the columns the
aggregation query reads (`timestamp`, `processing_time`, `error_code`). -/
structure StoredTransaction where
  transaction_id : String
  timestamp : Timestamp
  processing_time : ℚ
  error_code : Option String
deriving DecidableEq

/-- A row of the aggregation result (the spec's `DailyMetrics`). -/
@[ext]
structure DailyMetrics where
  date : ℕ
  total_transactions : ℕ
  avg_response_time : ℚ
  error_rate : ℚ
  sla_breaches : ℕ
deriving DecidableEq

/-- The rows of the store falling on calendar date `d` (the `GROUP BY
DATE(timestamp)` group of `d`). -/
def txOnDate (store : List StoredTransaction) (d : ℕ) : List StoredTransaction :=
  store.filter (fun t => dateOf t.timestamp = d)

/-- The aggregate row the query produces for a date `d` with at least one
transaction: `COUNT(*)`, `AVG(processing_time)`, the error-rate percentage
and the count of rows with `processing_time > 4.0`. -/
def dailyFor (store : List StoredTransaction) (d : ℕ) : DailyMetrics :=
  let g := txOnDate store d
  { date := d
    total_transactions := g.length
    avg_response_time := (g.map (·.processing_time)).sum / (g.length : ℚ)
    error_rate := ((g.filter (fun t => t.error_code ≠ none)).length : ℚ) * 100 / (g.length : ℚ)
    sla_breaches := (g.filter (fun t => 4 < t.processing_time)).length }

/-- `TransactionMonitor.analyze_performance`: one aggregate row per date in
the inclusive range `[start_date, end_date]` that has at least one row,
ascending by date. -/
def analyze_performance (store : List StoredTransaction) (start_date end_date : ℕ) :
    List DailyMetrics :=
  (((List.range' start_date (end_date + 1 - start_date)).filter
      (fun d => !(txOnDate store d).isEmpty)).map (dailyFor store))

/-!
## The SLA evaluator

`generate_action_items` builds the list of action-item strings and joins
them with newlines, or returns the fixed no-action line.
-/

/-- Action item of the `avg_response_time > 4` rule. -/
def urgentItem : String := "- URGENT: Investigate high response times - SLA breach detected"

/-- Action item of the `error_rate > 1` rule. -/
def errorItem : String := "- Analyze error patterns and implement corrective measures"

/-- Action item of the `sla_breaches > 0` rule, naming the breach count. -/
def breachItem (n : ℕ) : String :=
  "- Review " ++ toString n ++ " transactions exceeding response time SLA"

/-- The fixed line returned when no rule fires. -/
def noActionItem : String := "- No immediate actions required"

/-- The `actions` list built by `generate_action_items`: the three rules in
program order, each appending its item when its threshold test passes. -/
def action_items (m : DailyMetrics) : List String :=
  (if 4 < m.avg_response_time then [urgentItem] else []) ++
  (if 1 < m.error_rate then [errorItem] else []) ++
  (if 0 < m.sla_breaches then [breachItem m.sla_breaches] else [])

/-- `TransactionMonitor.generate_action_items`:
`"\n".join(actions) if actions else "- No immediate actions required"`. -/
def generate_action_items (m : DailyMetrics) : String :=
  if action_items m = [] then noActionItem
  else String.intercalate "\n" (action_items m)

/-!
## The daily report

`generate_daily_report` aggregates the single day `date` and either returns
the fixed no-data message or renders the one metrics row through an
f-string.  Python's `:,` integer formatting and `:.2f` fixed-point
formatting (round half to even) are reproduced below; a date renders via
`toString`.
-/

/-- Insert a thousands separator every three characters of a reversed digit
list (the work loop of Python's `:,` format). -/
def commaRev : List Char → List Char
  | c1 :: c2 :: c3 :: c4 :: rest => c1 :: c2 :: c3 :: ',' :: commaRev (c4 :: rest)
  | l => l

/-- Python `format(n, ',')` for a nonnegative integer. -/
def fmtComma (n : ℕ) : String :=
  String.mk ((commaRev (toString n).data.reverse).reverse)

/-- Round to the nearest integer, ties to even (Python float formatting). -/
def roundHalfEven (q : ℚ) : ℤ :=
  let f := q.floor
  let r := q - f
  if r < mkRat 1 2 then f
  else if mkRat 1 2 < r then f + 1
  else if f % 2 = 0 then f else f + 1

/-- Left-pad a two-digit fraction field with a zero. -/
def pad2 (n : ℕ) : String := if n < 10 then "0" ++ toString n else toString n

/-- Python `format(q, '.2f')` (on the rational modelling the float). -/
def fmt2f (q : ℚ) : String :=
  let c := roundHalfEven (q * 100)
  if c < 0 then "-" ++ toString ((-c).toNat / 100) ++ "." ++ pad2 ((-c).toNat % 100)
  else toString (c.toNat / 100) ++ "." ++ pad2 (c.toNat % 100)

/-- The f-string body of `generate_daily_report`, rendered for one metrics
row (`metrics.iloc[0]`). -/
def report_body (date : ℕ) (m : DailyMetrics) : String :=
  "\n        Data Integrity Daily Report - " ++ toString date ++
  "\n        =====================================\n        \n        Transaction Summary:\n        - Total Transactions: " ++
  fmtComma m.total_transactions ++
  "\n        - Average Response Time: " ++ fmt2f m.avg_response_time ++
  "s\n        - Error Rate: " ++ fmt2f m.error_rate ++
  "%\n        - SLA Breaches: " ++ fmtComma m.sla_breaches ++
  "\n        \n        Performance Against SLA:\n        - Response Time SLA (4s): " ++
  (if m.avg_response_time ≤ 4 then "✓ Met" else "✗ Not Met") ++
  "\n        - Error Rate SLA (1%): " ++
  (if m.error_rate ≤ 1 then "✓ Met" else "✗ Not Met") ++
  "\n        \n        Action Items:\n        " ++ generate_action_items m ++
  "\n        "

/-- `TransactionMonitor.generate_daily_report`: aggregate the single day,
return the fixed message when the result is empty, otherwise render the
first (only) row. -/
def generate_daily_report (store : List StoredTransaction) (date : ℕ) : String :=
  match analyze_performance store date date with
  | [] => "No data available for specified date"
  | m :: _ => report_body date m

/-- A small sample store (two transactions on day 1, one on day 2) used by
the concrete witnesses. -/
def demoStore : List StoredTransaction :=
  [⟨"T1", ⟨1, 10⟩, 1, none⟩,
   ⟨"T2", ⟨1, 20⟩, 5, some "E01"⟩,
   ⟨"T3", ⟨2, 0⟩, 2, none⟩]

/-- `demoStore` plus a transaction on day 9, outside the sampled range. -/
def demoStoreB : List StoredTransaction :=
  demoStore ++ [⟨"T9", ⟨9, 0⟩, 1, none⟩]

/-!
## Properties of the validator
-/

/-- When `validate_transaction` returns (rather than raising), its error
list is the four missing-field singletons followed by the three check
singletons, in program order, and the flag is emptiness of that list. -/
lemma validate_shape (t : Transaction) (b : Bool) (codes : List String)
    (h : validate_transaction t = .ok (b, codes)) :
    ∃ amount_le_zero slow,
      pyLE t.amount (.num 0) = .ok amount_le_zero ∧
      pyGT t.processing_time (.num 4) = .ok slow ∧
      codes =
        ((((if pd_isna t.merchant_id then ["MISSING_MERCHANT_ID"] else []) ++
            (if pd_isna t.amount then ["MISSING_AMOUNT"] else []) ++
            (if pd_isna t.currency then ["MISSING_CURRENCY"] else []) ++
            (if pd_isna t.card_type then ["MISSING_CARD_TYPE"] else [])) ++
          (if amount_le_zero then ["INVALID_AMOUNT"] else [])) ++
         (if (pyStr t.currency).length ≠ 3 then ["INVALID_CURRENCY"] else [])) ++
        (if slow then ["SLA_BREACH"] else []) ∧
      b = codes.isEmpty := by
  unfold validate_transaction at h
  cases hle : pyLE t.amount (.num 0) with
  | error e => rw [hle] at h; simp at h
  | ok a =>
    rw [hle] at h
    cases hgt : pyGT t.processing_time (.num 4) with
    | error e => rw [hgt] at h; simp at h
    | ok s =>
      rw [hgt] at h
      simp only [Except.ok.injEq, Prod.mk.injEq] at h
      exact ⟨a, s, rfl, rfl, h.2.symm, by rw [← h.1, ← h.2]⟩

/-- A conditional singleton is a sublist of its singleton. -/
lemma ite_singleton_sublist {α : Type} (p : Prop) [Decidable p] (x : α) :
    (if p then [x] else []).Sublist [x] := by
  split <;> simp

/-- Membership in a conditional singleton. -/
lemma mem_ite_singleton {α : Type} (y x : α) (p : Prop) [Decidable p] :
    y ∈ (if p then [x] else []) ↔ p ∧ y = x := by
  split <;> simp [*]

/-- C1: the claim says `validate` never raises and treats a null `amount`
as missing only.  The code contradicts it: with `amount = None` the
comparison `transaction['amount'] <= 0` raises `TypeError` (whereas with
`amount = nan` the call returns `MISSING_AMOUNT` alone, as the claim
says). -/
theorem validate_none_amount_raises :
    validate_transaction ⟨.str "M1", .vnone, .str "USD", .str "credit", .num 1⟩ =
      .error .typeError ∧
    validate_transaction ⟨.str "M1", .nan, .str "USD", .str "credit", .num 1⟩ =
      .ok (false, ["MISSING_AMOUNT"]) := by
  exact ⟨by decide, by decide⟩

/-- C2: whenever `validate` returns, its error-code list is exactly the
concatenation, in the fixed §4.1 order (missing-field codes in field
order, then `INVALID_AMOUNT`, `INVALID_CURRENCY`, `SLA_BREACH`), of one
conditional singleton per check — every applicable code appears and none
is dropped (no short-circuiting) — and hence a sublist of the fixed
seven-code sequence; and on the spec's scenario transaction it returns
exactly the four listed codes. -/
theorem validate_code_order :
    (∀ t b codes, validate_transaction t = .ok (b, codes) →
      codes =
        (if pd_isna t.merchant_id then ["MISSING_MERCHANT_ID"] else []) ++
        (if pd_isna t.amount then ["MISSING_AMOUNT"] else []) ++
        (if pd_isna t.currency then ["MISSING_CURRENCY"] else []) ++
        (if pd_isna t.card_type then ["MISSING_CARD_TYPE"] else []) ++
        (if pyLE t.amount (.num 0) = .ok true then ["INVALID_AMOUNT"] else []) ++
        (if (pyStr t.currency).length ≠ 3 then ["INVALID_CURRENCY"] else []) ++
        (if pyGT t.processing_time (.num 4) = .ok true then ["SLA_BREACH"] else [])) ∧
    (∀ t b codes, validate_transaction t = .ok (b, codes) →
      codes.Sublist ["MISSING_MERCHANT_ID", "MISSING_AMOUNT", "MISSING_CURRENCY",
        "MISSING_CARD_TYPE", "INVALID_AMOUNT", "INVALID_CURRENCY", "SLA_BREACH"]) ∧
    validate_transaction ⟨.vnone, .num (-5), .str "US", .vnone, .num 1⟩ =
      .ok (false, ["MISSING_MERCHANT_ID", "MISSING_CARD_TYPE", "INVALID_AMOUNT",
        "INVALID_CURRENCY"]) := by
  refine ⟨?_, ?_, by decide⟩
  · intro t b codes h
    obtain ⟨a, s, hle, hgt, hcodes, -⟩ := validate_shape t b codes h
    rw [hcodes, hle, hgt]
    simp only [Except.ok.injEq]
  · intro t b codes h
    obtain ⟨a, s, -, -, hcodes, -⟩ := validate_shape t b codes h
    rw [hcodes]
    show List.Sublist _
      (["MISSING_MERCHANT_ID"] ++ ["MISSING_AMOUNT"] ++ ["MISSING_CURRENCY"] ++
        ["MISSING_CARD_TYPE"] ++ ["INVALID_AMOUNT"] ++ ["INVALID_CURRENCY"] ++ ["SLA_BREACH"])
    exact ((((((ite_singleton_sublist _ _).append
      (ite_singleton_sublist _ _)).append
      (ite_singleton_sublist _ _)).append
      (ite_singleton_sublist _ _)).append
      (ite_singleton_sublist _ _)).append
      (ite_singleton_sublist _ _)).append
      (ite_singleton_sublist _ _)

/-- Witness for C2 at the scenario transaction: both universal conjuncts
instantiated there. -/
theorem validate_code_order_witness :
    (["MISSING_MERCHANT_ID", "MISSING_CARD_TYPE", "INVALID_AMOUNT", "INVALID_CURRENCY"] =
      (if pd_isna PyVal.vnone then ["MISSING_MERCHANT_ID"] else []) ++
      (if pd_isna (PyVal.num (-5)) then ["MISSING_AMOUNT"] else []) ++
      (if pd_isna (PyVal.str "US") then ["MISSING_CURRENCY"] else []) ++
      (if pd_isna PyVal.vnone then ["MISSING_CARD_TYPE"] else []) ++
      (if pyLE (PyVal.num (-5)) (.num 0) = .ok true then ["INVALID_AMOUNT"] else []) ++
      (if (pyStr (PyVal.str "US")).length ≠ 3 then ["INVALID_CURRENCY"] else []) ++
      (if pyGT (PyVal.num 1) (.num 4) = .ok true then ["SLA_BREACH"] else [])) ∧
    List.Sublist ["MISSING_MERCHANT_ID", "MISSING_CARD_TYPE", "INVALID_AMOUNT",
        "INVALID_CURRENCY"]
      ["MISSING_MERCHANT_ID", "MISSING_AMOUNT", "MISSING_CURRENCY",
        "MISSING_CARD_TYPE", "INVALID_AMOUNT", "INVALID_CURRENCY", "SLA_BREACH"] :=
  ⟨validate_code_order.1 ⟨.vnone, .num (-5), .str "US", .vnone, .num 1⟩ false
      ["MISSING_MERCHANT_ID", "MISSING_CARD_TYPE", "INVALID_AMOUNT", "INVALID_CURRENCY"]
      (by decide),
   validate_code_order.2.1 ⟨.vnone, .num (-5), .str "US", .vnone, .num 1⟩ false
      ["MISSING_MERCHANT_ID", "MISSING_CARD_TYPE", "INVALID_AMOUNT", "INVALID_CURRENCY"]
      (by decide)⟩

/-- C3: whenever `validate` returns on a transaction whose processing time
is a number exceeding 4.0, `SLA_BREACH` is among its error codes and the
verdict is invalid, whatever the other fields; and the spec's scenario
transaction yields exactly `(False, ["SLA_BREACH"])`. -/
theorem validate_sla_breach :
    (∀ t (q : ℚ) b codes, t.processing_time = .num q → 4 < q →
      validate_transaction t = .ok (b, codes) → "SLA_BREACH" ∈ codes ∧ b = false) ∧
    validate_transaction ⟨.str "M1", .num 10, .str "USD", .str "credit", .num (mkRat 26 5)⟩ =
      .ok (false, ["SLA_BREACH"]) := by
  constructor
  · intro t q b codes hpt hq h
    obtain ⟨a, s, -, hgt, hcodes, hb⟩ := validate_shape t b codes h
    rw [hpt] at hgt
    simp only [pyGT, Except.ok.injEq] at hgt
    rw [← hgt] at hcodes
    constructor
    · rw [hcodes]; simp [hq]
    · rw [hb, hcodes]; simp [hq]
  · decide

/-- Witness for C3 at the scenario transaction. -/
theorem validate_sla_breach_witness :
    "SLA_BREACH" ∈ ["SLA_BREACH"] ∧ (false : Bool) = false :=
  validate_sla_breach.1 ⟨.str "M1", .num 10, .str "USD", .str "credit", .num (mkRat 26 5)⟩
    (mkRat 26 5) false ["SLA_BREACH"] rfl (by decide) (by decide)

/-- C9: whenever `validate` returns, the validity flag is true exactly when
the returned error-code list is empty. -/
theorem validate_valid_iff_no_errors :
    ∀ t b codes, validate_transaction t = .ok (b, codes) → (b = true ↔ codes = []) := by
  intro t b codes h
  obtain ⟨-, -, -, -, -, hb⟩ := validate_shape t b codes h
  rw [hb]
  exact List.isEmpty_iff

/-- Witness for C9 at a fully valid transaction. -/
theorem validate_valid_iff_no_errors_witness :
    (true : Bool) = true ↔ ([] : List String) = [] :=
  validate_valid_iff_no_errors ⟨.str "M1", .num 10, .str "USD", .str "credit", .num 1⟩
    true [] (by decide)

/-- C10: whenever `validate` returns, a `None` currency produces both
`MISSING_CURRENCY` and `INVALID_CURRENCY` (`str(None)` has 4 characters)
while a `nan` currency produces `MISSING_CURRENCY` but not
`INVALID_CURRENCY` (`str(nan)` has exactly 3). -/
theorem validate_currency_null_repr :
    ∀ t b codes, validate_transaction t = .ok (b, codes) →
      (t.currency = .vnone →
        "MISSING_CURRENCY" ∈ codes ∧ "INVALID_CURRENCY" ∈ codes) ∧
      (t.currency = .nan →
        "MISSING_CURRENCY" ∈ codes ∧ "INVALID_CURRENCY" ∉ codes) := by
  intro t b codes h
  obtain ⟨a, s, -, -, hcodes, -⟩ := validate_shape t b codes h
  constructor
  · intro hc
    rw [hcodes, hc]
    refine ⟨by simp [pd_isna], by simp [pd_isna, pyStr]; decide⟩
  · intro hc
    rw [hcodes, hc]
    refine ⟨by simp [pd_isna], ?_⟩
    simp [List.mem_append, mem_ite_singleton, pd_isna, pyStr]
    decide

/-- Witness for C10 at a transaction whose currency is `None`. -/
theorem validate_currency_null_repr_witness :
    ((PyVal.vnone = PyVal.vnone →
      "MISSING_CURRENCY" ∈ ["MISSING_CURRENCY", "INVALID_CURRENCY"] ∧
      "INVALID_CURRENCY" ∈ ["MISSING_CURRENCY", "INVALID_CURRENCY"]) ∧
     (PyVal.vnone = PyVal.nan →
      "MISSING_CURRENCY" ∈ ["MISSING_CURRENCY", "INVALID_CURRENCY"] ∧
      "INVALID_CURRENCY" ∉ ["MISSING_CURRENCY", "INVALID_CURRENCY"])) :=
  validate_currency_null_repr ⟨.str "M1", .num 10, .vnone, .str "credit", .num 1⟩
    false ["MISSING_CURRENCY", "INVALID_CURRENCY"] (by decide)

/-!
## Properties of the aggregator
-/

/-- The dates of the aggregation result are the dates of the queried range
that have at least one transaction. -/
lemma analyze_dates (store : List StoredTransaction) (s e : ℕ) :
    (analyze_performance store s e).map (fun m => m.date) =
      (List.range' s (e + 1 - s)).filter (fun d => !(txOnDate store d).isEmpty) := by
  unfold analyze_performance
  rw [List.map_map]
  exact List.map_id _

/-- Membership characterization of the aggregation result. -/
lemma mem_analyze_iff (store : List StoredTransaction) (s e : ℕ) (m : DailyMetrics) :
    m ∈ analyze_performance store s e ↔
      s ≤ m.date ∧ m.date ≤ e ∧ txOnDate store m.date ≠ [] ∧ m = dailyFor store m.date := by
  unfold analyze_performance
  rw [List.mem_map]
  constructor
  · rintro ⟨d, hd, rfl⟩
    rw [List.mem_filter, List.mem_range'_1] at hd
    obtain ⟨⟨hd1, hd2⟩, hne⟩ := hd
    refine ⟨hd1, by show d ≤ e; omega, ?_, rfl⟩
    show txOnDate store d ≠ []
    simpa [List.isEmpty_iff] using hne
  · rintro ⟨h1, h2, h3, h4⟩
    refine ⟨m.date, ?_, h4.symm⟩
    rw [List.mem_filter, List.mem_range'_1]
    exact ⟨⟨h1, by omega⟩, by simpa [List.isEmpty_iff] using h3⟩

/-- C4: the aggregation result lists, in strictly ascending date order (so
exactly once per date), the dates of the inclusive range carrying at least
one transaction, with count, mean processing time, error-rate percentage
and breach count as specified; and it is unchanged by reassigning every
transaction's time of day. -/
theorem analyze_performance_spec (store : List StoredTransaction) (s e : ℕ) :
    List.Pairwise (· < ·) ((analyze_performance store s e).map (fun m => m.date)) ∧
    (∀ m, m ∈ analyze_performance store s e ↔
      s ≤ m.date ∧ m.date ≤ e ∧ txOnDate store m.date ≠ [] ∧
      m.total_transactions = (txOnDate store m.date).length ∧
      m.avg_response_time =
        ((txOnDate store m.date).map (fun t => t.processing_time)).sum /
          ((txOnDate store m.date).length : ℚ) ∧
      m.error_rate =
        (((txOnDate store m.date).filter (fun t => t.error_code ≠ none)).length : ℚ) * 100 /
          ((txOnDate store m.date).length : ℚ) ∧
      m.sla_breaches =
        ((txOnDate store m.date).filter (fun t => 4 < t.processing_time)).length) ∧
    ∀ g : StoredTransaction → ℕ,
      analyze_performance
          (store.map (fun t => { t with timestamp := ⟨t.timestamp.date, g t⟩ })) s e =
        analyze_performance store s e := by
  refine ⟨?_, ?_, ?_⟩
  · rw [analyze_dates]
    exact List.Pairwise.sublist (List.filter_sublist _) (List.pairwise_lt_range' s _)
  · intro m
    rw [mem_analyze_iff]
    constructor
    · rintro ⟨h1, h2, h3, h4⟩
      rw [h4]
      exact ⟨h1, h2, h3, rfl, rfl, rfl, rfl⟩
    · rintro ⟨h1, h2, h3, h4, h5, h6, h7⟩
      exact ⟨h1, h2, h3, DailyMetrics.ext rfl h4 h5 h6 h7⟩
  · intro g
    have hfil : ∀ d,
        txOnDate (store.map (fun t => { t with timestamp := ⟨t.timestamp.date, g t⟩ })) d =
          (txOnDate store d).map (fun t => { t with timestamp := ⟨t.timestamp.date, g t⟩ }) := by
      intro d
      unfold txOnDate
      rw [List.filter_map]
      rfl
    have hdaily : ∀ d,
        dailyFor (store.map (fun t => { t with timestamp := ⟨t.timestamp.date, g t⟩ })) d =
          dailyFor store d := by
      intro d
      unfold dailyFor
      rw [hfil d]
      simp [List.map_map, List.filter_map]
      exact ⟨rfl, rfl, rfl⟩
    unfold analyze_performance
    have hpred :
        (fun d => !(txOnDate (store.map
            (fun t => { t with timestamp := ⟨t.timestamp.date, g t⟩ })) d).isEmpty) =
          (fun d => !(txOnDate store d).isEmpty) := by
      funext d
      rw [hfil d]
      cases txOnDate store d <;> rfl
    rw [hpred]
    exact List.map_congr_left fun d _ => hdaily d

/-- C5: every produced entry has at least one transaction, an error rate
between 0 and 100, and no more SLA breaches than transactions. -/
theorem analyze_performance_bounds (store : List StoredTransaction) (s e : ℕ)
    (m : DailyMetrics) (hm : m ∈ analyze_performance store s e) :
    1 ≤ m.total_transactions ∧ 0 ≤ m.error_rate ∧ m.error_rate ≤ 100 ∧
      m.sla_breaches ≤ m.total_transactions := by
  rw [mem_analyze_iff] at hm
  obtain ⟨-, -, hne, hm⟩ := hm
  have hlen : 0 < (txOnDate store m.date).length := List.length_pos.mpr hne
  have htot : m.total_transactions = (txOnDate store m.date).length := by rw [hm]; rfl
  have herr : m.error_rate =
      (((txOnDate store m.date).filter (fun t => t.error_code ≠ none)).length : ℚ) * 100 /
        ((txOnDate store m.date).length : ℚ) := by rw [hm]; rfl
  have hsla : m.sla_breaches =
      ((txOnDate store m.date).filter (fun t => 4 < t.processing_time)).length := by
    rw [hm]; rfl
  have hkn : ((txOnDate store m.date).filter (fun t => t.error_code ≠ none)).length ≤
      (txOnDate store m.date).length := List.length_filter_le _ _
  refine ⟨by omega, ?_, ?_, ?_⟩
  · rw [herr]
    positivity
  · rw [herr, div_le_iff₀ (by exact_mod_cast hlen)]
    have : (((txOnDate store m.date).filter (fun t => t.error_code ≠ none)).length : ℚ) ≤
        ((txOnDate store m.date).length : ℚ) := by exact_mod_cast hkn
    nlinarith
  · rw [htot, hsla]
    exact List.length_filter_le _ _

/-- Witness for C5 on the sample store. -/
theorem analyze_performance_bounds_witness :
    1 ≤ (dailyFor demoStore 1).total_transactions ∧
    0 ≤ (dailyFor demoStore 1).error_rate ∧ (dailyFor demoStore 1).error_rate ≤ 100 ∧
    (dailyFor demoStore 1).sla_breaches ≤ (dailyFor demoStore 1).total_transactions :=
  analyze_performance_bounds demoStore 1 2 (dailyFor demoStore 1)
    (by rw [show analyze_performance demoStore 1 2 =
        [dailyFor demoStore 1, dailyFor demoStore 2] from rfl]
        exact List.mem_cons_self _ _)

/-!
## Properties of the SLA evaluator and the daily report
-/

/-- A breach-count item never coincides with a string whose first nine
characters differ from `"- Review "`, whatever the count. -/
lemma breachItem_ne (n : ℕ) (s : String) (hs : s.data.take 9 ≠ "- Review ".data) :
    breachItem n ≠ s := by
  intro h
  apply hs
  rw [← h]
  unfold breachItem
  rw [String.append_assoc, String.data_append]
  have h9 : ("- Review ".data).length = 9 := rfl
  rw [← h9, List.take_left]

/-- C6: for every single-day metrics row, the urgent response-time item is
emitted iff `avg_response_time > 4`, the error-pattern item iff
`error_rate > 1`, the breach-count item (naming the row's exact count) iff
`sla_breaches > 0`, the items appear in that fixed order, the list is empty
iff no rule fires, in which case the fixed no-action line is returned; and
on the spec's scenario metrics exactly the error-rate and breach-count
items fire. -/
theorem generate_action_items_spec :
    (∀ m : DailyMetrics,
      (urgentItem ∈ action_items m ↔ 4 < m.avg_response_time) ∧
      (errorItem ∈ action_items m ↔ 1 < m.error_rate) ∧
      (breachItem m.sla_breaches ∈ action_items m ↔ 0 < m.sla_breaches) ∧
      List.Sublist (action_items m) [urgentItem, errorItem, breachItem m.sla_breaches] ∧
      (action_items m = [] ↔
        ¬ 4 < m.avg_response_time ∧ ¬ 1 < m.error_rate ∧ ¬ 0 < m.sla_breaches) ∧
      (action_items m = [] → generate_action_items m = noActionItem)) ∧
    action_items ⟨7, 100, mkRat 9 5, 2, 3⟩ = [errorItem, breachItem 3] := by
  constructor
  · intro m
    have hbu : breachItem m.sla_breaches ≠ urgentItem := breachItem_ne _ _ (by decide)
    have hbe : breachItem m.sla_breaches ≠ errorItem := breachItem_ne _ _ (by decide)
    have hue : urgentItem ≠ errorItem := by decide
    refine ⟨?_, ?_, ?_, ?_, ?_, ?_⟩
    · unfold action_items
      simp [List.mem_append, mem_ite_singleton, hue, Ne.symm hbu]
    · unfold action_items
      simp [List.mem_append, mem_ite_singleton, hue.symm, Ne.symm hbe]
    · unfold action_items
      simp [List.mem_append, mem_ite_singleton, hbu, hbe]
    · unfold action_items
      show List.Sublist _ (([urgentItem] ++ [errorItem]) ++ [breachItem m.sla_breaches])
      exact ((ite_singleton_sublist _ _).append (ite_singleton_sublist _ _)).append
        (ite_singleton_sublist _ _)
    · unfold action_items
      simp [List.append_eq_nil]
    · intro h
      unfold generate_action_items
      rw [if_pos h]
  · decide

/-- Witness for C6: on a row where no rule fires, the fixed no-action line
is returned. -/
theorem generate_action_items_witness :
    generate_action_items ⟨7, 50, 1, 1, 0⟩ = noActionItem :=
  ((generate_action_items_spec.1 ⟨7, 50, 1, 1, 0⟩).2.2.2.2.2) (by decide)

/-- C7: a date with no transactions in the store makes
`generate_daily_report` return the fixed no-data message, and that message
differs from the rendered report of any metrics row whatsoever (in
particular an all-zero one). -/
theorem daily_report_no_data :
    (∀ store date, txOnDate store date = [] →
      generate_daily_report store date = "No data available for specified date") ∧
    ∀ date m, report_body date m ≠ "No data available for specified date" := by
  constructor
  · intro store date h
    have hempty : analyze_performance store date date = [] := by
      unfold analyze_performance
      have h1 : date + 1 - date = 1 := by omega
      rw [h1, show List.range' date 1 = [date] from rfl]
      simp [h]
    unfold generate_daily_report
    rw [hempty]
  · intro date m h
    have hlen := congrArg String.length h
    unfold report_body at hlen
    simp only [String.length_append] at hlen
    rw [show ("\n        Data Integrity Daily Report - ").length = 39 from by decide,
      show ("No data available for specified date").length = 36 from by decide] at hlen
    omega

/-- Witness for C7 on a date the sample store does not cover. -/
theorem daily_report_no_data_witness :
    generate_daily_report demoStore 5 = "No data available for specified date" :=
  daily_report_no_data.1 demoStore 5 (by decide)

/-- C8: the daily report is a function of the metrics of the requested
date alone: two stores with the same aggregate for that day render the
same report text. -/
theorem daily_report_metrics_function :
    ∀ store store' date,
      analyze_performance store date date = analyze_performance store' date date →
      generate_daily_report store date = generate_daily_report store' date := by
  intro store store' date h
  unfold generate_daily_report
  rw [h]

/-- Witness for C8: adding an out-of-range transaction to the store leaves
the day's report unchanged. -/
theorem daily_report_metrics_function_witness :
    generate_daily_report demoStore 1 = generate_daily_report demoStoreB 1 :=
  daily_report_metrics_function demoStore demoStoreB 1 rfl

